import Mathlib

/-!
Shallow embedding of the two fetch-and-normalize pipelines of the
`es642-rh-correction` repository:

* `src/synoptic_api_get.py` — Provider A: a JSON timeseries API
  (`synoptic_api_get`), and
* `src/utahaq_api_get.py` — Provider B: a CSV monthly-archive API
  (`_utahaq_batch_get`, `utahaq_api_get`).

The HTTP transport is external to the repository; each pipeline is modelled
as a function of an explicit transport argument (a function from the request
parameters it actually sends to the raw response it receives back).  The
pandas operations the code relies on are embedded with their actual
semantics, in particular:

* `pd.date_range(start, end, freq='MS')` returns exactly the month-start
  instants lying inside the closed interval `[start, end]`;
* `pd.concat(lst)` silently drops `None` entries, raises
  `ValueError("All objects passed were None")` when `lst` is non-empty but
  every entry is `None`, and raises
  `ValueError("No objects to concatenate")` when `lst` is empty;
* boolean-mask filtering `df[mask]` keeps exactly the rows satisfying the
  mask, preserving their order;
* neither `pd.concat` nor `set_index` sorts rows.
-/

/-- A timezone-aware timestamp, abstracted to the granularity the code
distinguishes: `ym` counts calendar months from some epoch
(`year * 12 + month - 1`), and `sub` is the offset of the instant within its
month (`sub = 0` exactly at the month's first instant, which is what a
pandas `MS`-aligned date is).  Ordering is lexicographic, which agrees with
chronological order. -/
structure Ts where
  ym : Nat
  sub : Nat
deriving DecidableEq, Repr

instance : LE Ts := ⟨fun a b => a.ym < b.ym ∨ (a.ym = b.ym ∧ a.sub ≤ b.sub)⟩

instance : LT Ts := ⟨fun a b => a.ym < b.ym ∨ (a.ym = b.ym ∧ a.sub < b.sub)⟩

instance : DecidableRel (α := Ts) (· ≤ ·) := fun a b =>
  inferInstanceAs (Decidable (a.ym < b.ym ∨ (a.ym = b.ym ∧ a.sub ≤ b.sub)))

instance : DecidableRel (α := Ts) (· < ·) := fun a b =>
  inferInstanceAs (Decidable (a.ym < b.ym ∨ (a.ym = b.ym ∧ a.sub < b.sub)))

/-- The first instant of calendar month `m`: what an `MS`-aligned pandas
date is. -/
def monthStart (m : Nat) : Ts := ⟨m, 0⟩

/-! ## Provider B (`src/utahaq_api_get.py`) -/

/-- One parsed data row of a Provider B monthly-archive CSV response
(after the leading metadata row has been skipped): the UTC timestamp
obtained from the `Date` and `TimeUTC` columns, and the three `esampler`
columns the code touches.  Measurement values are modelled as integers;
their arithmetic is never used. -/
structure RawRow where
  ts : Ts
  esampler_error_code : Int
  esampler_pm25_ugm3 : Int
  esampler_rh_pcent : Int
deriving DecidableEq, Repr

/-- One row of the normalized Provider B table: timestamp index plus the
two retained, renamed measurement columns. -/
structure BRow where
  ts : Ts
  pm25_ugm3 : Int
  rh_pct : Int
deriving DecidableEq, Repr

/-- The per-row effect of `res.rename(columns=...)` followed by
`res[['pm25_ugm3', 'rh_pct']]`: keep the timestamp index and the two
renamed measurement columns, drop everything else. -/
def toBRow (r : RawRow) : BRow :=
  ⟨r.ts, r.esampler_pm25_ugm3, r.esampler_rh_pcent⟩

/-- A Python exception, by category (the only two categories this code
raises), carrying its message. -/
inductive PyErr where
  | osError (msg : String)
  | valueError (msg : String)
deriving DecidableEq, Repr

/-- Embedding of `_utahaq_batch_get` from the raw response on: the argument
is `none` when the response body was empty (`pd.read_csv` raised
`EmptyDataError`, and the function returns `None`), otherwise the parsed
data rows.  On a parsed response the code keeps the rows with
`esampler_error_code == 0`, indexes by timestamp, renames the two
measurement columns and drops the rest. -/
def utahaq_batch_get (resp : Option (List RawRow)) : Option (List BRow) :=
  match resp with
  | none => none
  | some rows =>
      some ((rows.filter (fun r => r.esampler_error_code == 0)).map toBRow)

/-- Embedding of `pd.date_range(start=s, end=e, freq='MS')`, as the list of
months whose first instant lies in the closed interval `[s, e]` (in
chronological order).  The first such month is `s.ym` itself when `s` is
exactly a month start, else `s.ym + 1`; the last is `e.ym`.  When `s > e`
the list is empty, as in pandas. -/
def dateRangeMS (s e : Ts) : List Nat :=
  List.range' (if s.sub = 0 then s.ym else s.ym + 1)
    (e.ym + 1 - (if s.sub = 0 then s.ym else s.ym + 1))

/-- The months `utahaq_api_get` issues one outbound request for: the
`query_dates` loop.  `query_dates = pd.date_range(start, end, freq='MS')`,
replaced by `[start]` when empty; each request then carries only
`date.year` and `date.month`, i.e. the month value. -/
def queryMonths (s e : Ts) : List Nat :=
  if dateRangeMS s e = [] then [s.ym] else dateRangeMS s e

/-- Embedding of `utahaq_api_get`.  `fetch m` is the transport: the raw
response to the single outbound request for month `m` (`none` for an empty
body).  One batch is fetched per entry of `queryMonths`, in order; the
batch results are concatenated with `pd.concat` (which drops `None`
entries and raises `ValueError` when all entries are `None`), and the
result is filtered to the inclusive `[s, e]` bound. -/
def utahaq_api_get (fetch : Nat → Option (List RawRow)) (s e : Ts) :
    Except PyErr (List BRow) :=
  if ((queryMonths s e).map (fun m => utahaq_batch_get (fetch m))).filterMap id = [] then
    Except.error (PyErr.valueError "All objects passed were None")
  else
    Except.ok
      (((((queryMonths s e).map (fun m => utahaq_batch_get (fetch m))).filterMap id).flatten).filter
        (fun r => decide (s ≤ r.ts) && decide (r.ts ≤ e)))

/-- Modelled from the spec (claim side, not from the source): the calendar
months containing any part of `[s, e]` — every month from `s`'s to `e`'s
inclusive.  Used only to compare the claimed request coverage with
`queryMonths`. -/
def specCoveredMonths (s e : Ts) : List Nat :=
  List.range' s.ym (e.ym + 1 - s.ym)

/-! ## Provider A (`src/synoptic_api_get.py`) -/

/-- A Python runtime value in one of the shapes `synoptic_api_get`'s
input-conversion code distinguishes with exact `type(x) is _` tests.
`pyts` is a value whose type is exactly `pd.Timestamp`; `pytsSub` is an
instance of a proper subclass of `pd.Timestamp` (for which
`type(x) is pd.Timestamp` is `False`); `pynone` is `None` (the `api_vars`
default). -/
inductive PyVal where
  | pystr (s : String)
  | pylist (xs : List String)
  | pytuple (xs : List String)
  | pyts (t : Ts)
  | pytsSub (t : Ts)
  | pynone
deriving DecidableEq, Repr

/-- The `strftime('%Y%m%d%H%M')` compact format.  The model's timestamps do
not carry separate calendar fields, so the format is represented by a
canonical injective rendering of the instant; only whether the conversion
fires is ever at stake. -/
def strftimeCompact (t : Ts) : String :=
  String.append (toString t.ym) (String.append "." (toString t.sub))

/-- Embedding of `if type(x) is list: x = ','.join(x)` — applied to `stid`
and to `api_vars`.  Fires only when the runtime type is exactly `list`;
every other value passes through unchanged. -/
def joinIfList (v : PyVal) : PyVal :=
  match v with
  | PyVal.pylist xs => PyVal.pystr (String.intercalate "," xs)
  | v => v

/-- Embedding of `if type(x) is pd.Timestamp: x = x.strftime('%Y%m%d%H%M')`
— applied to `start` and to `end`.  Fires only when the runtime type is
exactly `pd.Timestamp`; every other value (including a `Timestamp`
subclass instance) passes through unchanged. -/
def formatIfTimestamp (v : PyVal) : PyVal :=
  match v with
  | PyVal.pyts t => PyVal.pystr (strftimeCompact t)
  | v => v

/-- The query parameters `synoptic_api_get` transmits (the `params` dict,
minus the environment-sourced token, which is outside the model). -/
structure AParams where
  stid : PyVal
  start : PyVal
  stop : PyVal
  vars : PyVal
deriving DecidableEq, Repr

/-- Embedding of the request-builder prefix of `synoptic_api_get`: the four
caller inputs after the exact-type conversions, assembled into the
transmitted query parameters. -/
def buildParams (stid start stop vars : PyVal) : AParams :=
  { stid := joinIfList stid
    start := formatIfTimestamp start
    stop := formatIfTimestamp stop
    vars := joinIfList vars }

/-- The `OBSERVATIONS` object of one station of a Provider A JSON response:
the `date_time` array (held separately — the code reads it and then pops
the `date_time` key) and the remaining per-variable arrays in JSON object
order, positionally aligned with `date_time`. -/
structure AObs where
  date_time : List Ts
  fields : List (String × List Int)
deriving DecidableEq, Repr

/-- One station object of a Provider A JSON response.  `latitude` and
`longitude` are modelled as integers standing in for the parsed numeric
strings; their values are never computed with. -/
structure AStation where
  stid : String
  latitude : Int
  longitude : Int
  observations : AObs
deriving DecidableEq, Repr

/-- A Provider A JSON response body: `SUMMARY.RESPONSE_CODE` and the
`STATION` array. -/
structure AResponse where
  response_code : Int
  stations : List AStation
deriving DecidableEq, Repr

/-- One row of the normalized Provider A table: the timestamp index value
and the `stid`, `latitude`, `longitude` columns, plus this row's values of
the variable-dependent measurement columns (name/value pairs in column
order). -/
structure ARow where
  date : Ts
  stid : String
  latitude : Int
  longitude : Int
  vals : List (String × Int)
deriving DecidableEq, Repr

/-- The normalized Provider A table: the measurement-column names in order
(the columns after `stid`, `latitude`, `longitude`), and the rows in their
final concatenation order, indexed by `date`. -/
structure ATable where
  measCols : List String
  rows : List ARow
deriving DecidableEq, Repr

/-- The full column list of a normalized Provider A table, in DataFrame
order after `set_index('date')`: the three fixed columns, then the
measurement columns. -/
def ATable.columns (t : ATable) : List String :=
  "stid" :: "latitude" :: "longitude" :: t.measCols

/-- The rows of the per-station DataFrame
`pd.DataFrame({'date': date, 'stid': ..., 'latitude': ..., 'longitude':
..., **obs})`: one row per entry of the `date_time` array, with the scalar
station fields broadcast and the measurement arrays read positionally.
The response's arrays are positionally aligned (per the provider's
interface contract); a too-short array is read as `0` here, where pandas
would refuse to build the frame. -/
def stationRows (st : AStation) : List ARow :=
  (List.range st.observations.date_time.length).map (fun i =>
    { date := st.observations.date_time.getD i ⟨0, 0⟩
      stid := st.stid
      latitude := st.latitude
      longitude := st.longitude
      vals := st.observations.fields.map (fun kv => (kv.1, kv.2.getD i 0)) })

/-- The measurement-column names of one per-station DataFrame: the
`OBSERVATIONS` keys, `date_time` excluded, in JSON object order. -/
def stationCols (st : AStation) : List String :=
  st.observations.fields.map Prod.fst

/-- Column union as `pd.concat` performs it across frames with possibly
different columns: the first frame's columns, then each later frame's
columns not yet present, in order of appearance. -/
def colUnion (l : List (List String)) : List String :=
  l.foldl (fun acc cs => acc ++ cs.filter (fun c => ! acc.contains c)) []

/-- Embedding of the response-processing suffix of `synoptic_api_get`:
status-field dispatch, then per-station normalization, then
`pd.concat(df_list, ignore_index=True).set_index('date')`.  `pd.concat`
raises `ValueError("No objects to concatenate")` when the station list —
and hence `df_list` — is empty. -/
def synopticProcess (res : AResponse) : Except PyErr ATable :=
  if res.response_code = -1 ∨ res.response_code = 200 then
    Except.error (PyErr.osError "SYNOPTIC_API_TOKEN environment variable invalid.")
  else if res.response_code = 2 then
    Except.error (PyErr.valueError "No data found. Try a different stid or time range.")
  else if res.stations = [] then
    Except.error (PyErr.valueError "No objects to concatenate")
  else
    Except.ok
      { measCols := colUnion (res.stations.map stationCols)
        rows := (res.stations.map stationRows).flatten }

/-- Embedding of `synoptic_api_get`: build the query parameters from the
caller's inputs, obtain the JSON response through the transport, and
process it. -/
def synoptic_api_get (transport : AParams → AResponse)
    (stid start stop vars : PyVal) : Except PyErr ATable :=
  synopticProcess (transport (buildParams stid start stop vars))

/-- A concrete two-station Provider A response with a success status code
and overlapping per-station time ranges: station `KSLC` reports at instants
0 and 10 of month 0, station `WBB` at instant 5 of the same month. -/
def resTwoStations : AResponse :=
  { response_code := 0
    stations :=
      [ { stid := "KSLC"
          latitude := 40
          longitude := -111
          observations :=
            { date_time := [⟨0, 0⟩, ⟨0, 10⟩]
              fields := [("air_temp_set_1", [-5, -4])] } },
        { stid := "WBB"
          latitude := 40
          longitude := -112
          observations :=
            { date_time := [⟨0, 5⟩]
              fields := [("air_temp_set_1", [-3])] } } ] }

/-! ## General lemmas about the embedded operations -/

theorem Ts.le_def (a b : Ts) :
    a ≤ b ↔ a.ym < b.ym ∨ (a.ym = b.ym ∧ a.sub ≤ b.sub) := Iff.rfl

theorem Ts.lt_def (a b : Ts) :
    a < b ↔ a.ym < b.ym ∨ (a.ym = b.ym ∧ a.sub < b.sub) := Iff.rfl

theorem Ts.le_trans {a b c : Ts} (hab : a ≤ b) (hbc : b ≤ c) : a ≤ c := by
  rcases hab with h | ⟨h1, h2⟩ <;> rcases hbc with h' | ⟨h1', h2'⟩
  · exact Or.inl (Nat.lt_trans h h')
  · exact Or.inl (h1' ▸ h)
  · exact Or.inl (h1 ▸ h')
  · exact Or.inr ⟨h1.trans h1', Nat.le_trans h2 h2'⟩

theorem Ts.not_le_of_lt {a b : Ts} (h : b < a) : ¬ a ≤ b := by
  rcases h with h | ⟨h1, h2⟩ <;> rintro (h' | ⟨h1', h2'⟩) <;> omega

theorem Ts.le_of_ym_lt {a b : Ts} (h : a.ym < b.ym) : a ≤ b := Or.inl h

/-- The months `utahaq_api_get` requests are strictly increasing. -/
theorem queryMonths_pairwise_lt (s e : Ts) :
    List.Pairwise (· < ·) (queryMonths s e) := by
  unfold queryMonths
  split
  · exact List.pairwise_singleton _ _
  · exact List.pairwise_lt_range' _ _

/-- Provenance of a row of the concatenated monthly batches: it comes from
a raw row of some fetched month's response that carried a zero
`esampler_error_code`, via the column rename/projection. -/
theorem mem_batches_flatten {fetch : Nat → Option (List RawRow)} {ms : List Nat} {b : BRow}
    (hb : b ∈ ((ms.map (fun m => utahaq_batch_get (fetch m))).filterMap id).flatten) :
    ∃ m ∈ ms, ∃ raws, fetch m = some raws ∧
      ∃ raw ∈ raws, raw.esampler_error_code = 0 ∧ toBRow raw = b := by
  rcases List.mem_flatten.mp hb with ⟨l, hl, hbl⟩
  rcases List.mem_filterMap.mp hl with ⟨o, ho, hid⟩
  rcases List.mem_map.mp ho with ⟨m, hm, rfl⟩
  cases hfetch : fetch m with
  | none =>
      rw [hfetch] at hid
      simp [utahaq_batch_get] at hid
  | some raws =>
      rw [hfetch] at hid
      simp only [utahaq_batch_get, id_eq, Option.some.injEq] at hid
      subst hid
      rcases List.mem_map.mp hbl with ⟨raw, hrawmem, hrw⟩
      rcases List.mem_filter.mp hrawmem with ⟨hraw, hcode⟩
      exact ⟨m, hm, raws, hfetch, raw, hraw, by simpa using hcode, hrw⟩

/-! ## Claims -/

/-- C1: the claimed request coverage fails on the code.  For the call
`utahaq_api_get(stid, 2019-01-15 00:00Z, 2019-02-10 00:00Z, datatype)`
(month 24228 = January 2019 at offset 1209600 s, month 24229 = February
2019 at offset 777600 s), the range spans one month boundary and touches
two calendar months, yet the code issues exactly one outbound request —
for February only — because `pd.date_range(freq='MS')` omits the month
containing `start` whenever `start` is not exactly a month start.  The
January part of the requested range is never fetched. -/
theorem C1_start_month_skipped :
    queryMonths ⟨24228, 1209600⟩ ⟨24229, 777600⟩ = [24229] ∧
      specCoveredMonths ⟨24228, 1209600⟩ ⟨24229, 777600⟩ = [24228, 24229] ∧
      (queryMonths ⟨24228, 1209600⟩ ⟨24229, 777600⟩).length ≠
        (specCoveredMonths ⟨24228, 1209600⟩ ⟨24229, 777600⟩).length := by
  refine ⟨rfl, rfl, by decide⟩

/-- C2 counterexample: when every monthly batch returns no data in the
sense that every response body is empty (each `_utahaq_batch_get` call
returns `None`), `utahaq_api_get` does not return an empty table —
`pd.concat` raises `ValueError("All objects passed were None")`. -/
theorem C2_all_none_raises :
    utahaq_api_get (fun _ => none) ⟨0, 0⟩ ⟨0, 0⟩ =
      Except.error (PyErr.valueError "All objects passed were None") := rfl

/-- C2 (amended): if every monthly batch yields no rows and at least one
batch actually parsed to a (zero-row) table rather than `None`, the final
table is empty and no error is raised.  (When every batch is `None`,
`pd.concat` raises a `ValueError` instead — see the counterexample.) -/
theorem C2_empty_batches_yield_empty_table (fetch : Nat → Option (List RawRow)) (s e : Ts)
    (h1 : ∀ m ∈ queryMonths s e,
      utahaq_batch_get (fetch m) = none ∨ utahaq_batch_get (fetch m) = some [])
    (h2 : ∃ m ∈ queryMonths s e, utahaq_batch_get (fetch m) ≠ none) :
    utahaq_api_get fetch s e = Except.ok [] := by
  have hall : ∀ l ∈ ((queryMonths s e).map
      (fun m => utahaq_batch_get (fetch m))).filterMap id, l = [] := by
    intro l hl
    rcases List.mem_filterMap.mp hl with ⟨o, ho, hid⟩
    rcases List.mem_map.mp ho with ⟨m, hm, rfl⟩
    rcases h1 m hm with h | h <;> rw [h] at hid
    · cases hid
    · cases hid; rfl
  have hne : ((queryMonths s e).map
      (fun m => utahaq_batch_get (fetch m))).filterMap id ≠ [] := by
    rcases h2 with ⟨m, hm, hnone⟩
    rcases Option.ne_none_iff_exists'.mp hnone with ⟨l, hl⟩
    exact List.ne_nil_of_mem
      (List.mem_filterMap.mpr ⟨utahaq_batch_get (fetch m), List.mem_map.mpr ⟨m, hm, rfl⟩, hl⟩)
  rw [utahaq_api_get, if_neg hne, List.flatten_eq_nil_iff.mpr hall]
  rfl

/-- C2 witness: a single-month call whose one batch parses to a zero-row
table returns the empty table. -/
theorem C2_empty_batches_yield_empty_table_witness :
    utahaq_api_get (fun _ => some []) ⟨0, 0⟩ ⟨0, 0⟩ = Except.ok [] :=
  C2_empty_batches_yield_empty_table (fun _ => some []) ⟨0, 0⟩ ⟨0, 0⟩
    (by decide) (by decide)

/-- C5: every row of a table returned by `utahaq_api_get` has its
timestamp inside the inclusive `[s, e]` bound, whatever the monthly
batches contained. -/
theorem C5_rows_within_bounds (fetch : Nat → Option (List RawRow)) (s e : Ts)
    (rows : List BRow) (h : utahaq_api_get fetch s e = Except.ok rows)
    (r : BRow) (hr : r ∈ rows) : s ≤ r.ts ∧ r.ts ≤ e := by
  rw [utahaq_api_get] at h
  split at h
  · cases h
  · cases h
    simpa using List.of_mem_filter hr

/-- C5 witness: a batch containing rows at offsets 5 and 20 of month 0,
queried with bounds `[⟨0,0⟩, ⟨0,10⟩]`, returns only the in-bound row, and
that row satisfies the bound. -/
theorem C5_rows_within_bounds_witness :
    (⟨0, 0⟩ : Ts) ≤ (BRow.mk ⟨0, 5⟩ 3 28).ts ∧ (BRow.mk ⟨0, 5⟩ 3 28).ts ≤ ⟨0, 10⟩ :=
  C5_rows_within_bounds
    (fun _ => some [⟨⟨0, 5⟩, 0, 3, 28⟩, ⟨⟨0, 20⟩, 0, 4, 29⟩]) ⟨0, 0⟩ ⟨0, 10⟩
    [⟨⟨0, 5⟩, 3, 28⟩] rfl ⟨⟨0, 5⟩, 3, 28⟩ (by decide)

/-- C6: every row of a table returned by `utahaq_api_get` originates from
a raw row of one of the fetched monthly batches whose
`esampler_error_code` was zero (flagged rows are dropped by the per-batch
filter, without an error), carried over by the rename/projection
`toBRow`. -/
theorem C6_rows_from_zero_error_code (fetch : Nat → Option (List RawRow)) (s e : Ts)
    (rows : List BRow) (h : utahaq_api_get fetch s e = Except.ok rows)
    (r : BRow) (hr : r ∈ rows) :
    ∃ m ∈ queryMonths s e, ∃ raws, fetch m = some raws ∧
      ∃ raw ∈ raws, raw.esampler_error_code = 0 ∧ toBRow raw = r := by
  rw [utahaq_api_get] at h
  split at h
  · cases h
  · cases h
    exact mem_batches_flatten (List.mem_of_mem_filter hr)

/-- C6 witness: with one batch holding a clean row and a flagged row, the
returned row is traced back to the clean raw row. -/
theorem C6_rows_from_zero_error_code_witness :
    ∃ m ∈ queryMonths ⟨0, 0⟩ ⟨0, 10⟩, ∃ raws,
      (fun _ : Nat => some [⟨⟨0, 5⟩, 0, 3, 28⟩, ⟨⟨0, 7⟩, 1, 9, 9⟩]) m = some raws ∧
      ∃ raw ∈ raws, raw.esampler_error_code = 0 ∧ toBRow raw = ⟨⟨0, 5⟩, 3, 28⟩ :=
  C6_rows_from_zero_error_code
    (fun _ => some [⟨⟨0, 5⟩, 0, 3, 28⟩, ⟨⟨0, 7⟩, 1, 9, 9⟩]) ⟨0, 0⟩ ⟨0, 10⟩
    [⟨⟨0, 5⟩, 3, 28⟩] rfl ⟨⟨0, 5⟩, 3, 28⟩ (by decide)

/-- C10: when `start > end`, the `MS` date range is empty, so the fallback
issues exactly one outbound request — for the month containing `start` —
and if that batch parses to rows the final inclusive-bound filter can keep
none of them, so the returned table is empty. -/
theorem C10_start_after_end (fetch : Nat → Option (List RawRow)) (s e : Ts)
    (hlt : e < s) (rs : List RawRow) (hfetch : fetch s.ym = some rs) (_hne : rs ≠ []) :
    queryMonths s e = [s.ym] ∧ utahaq_api_get fetch s e = Except.ok [] := by
  have hdr : dateRangeMS s e = [] := by
    rw [dateRangeMS]
    rcases hlt with h | ⟨h1, h2⟩
    · have hz : e.ym + 1 - (if s.sub = 0 then s.ym else s.ym + 1) = 0 := by
        split <;> omega
      rw [hz, List.range'_zero]
    · have hs : ¬ s.sub = 0 := by omega
      rw [if_neg hs]
      have hz : e.ym + 1 - (s.ym + 1) = 0 := by omega
      rw [hz, List.range'_zero]
  have hq : queryMonths s e = [s.ym] := by rw [queryMonths, if_pos hdr]
  refine ⟨hq, ?_⟩
  have hstep : ((queryMonths s e).map (fun m => utahaq_batch_get (fetch m))).filterMap id =
      [(rs.filter (fun r => r.esampler_error_code == 0)).map toBRow] := by
    rw [hq]
    simp [hfetch, utahaq_batch_get]
  rw [utahaq_api_get, hstep, if_neg (by simp)]
  have hfil : ∀ r : BRow,
      r ∈ (rs.filter (fun r => r.esampler_error_code == 0)).map toBRow →
      ¬ ((decide (s ≤ r.ts) && decide (r.ts ≤ e)) = true) := by
    intro r _
    simp only [Bool.and_eq_true, decide_eq_true_eq, not_and]
    intro h1 h2
    exact absurd (Ts.le_trans h1 h2) (Ts.not_le_of_lt hlt)
  rw [List.flatten_cons, List.flatten_nil, List.append_nil,
    List.filter_eq_nil_iff.mpr hfil]

/-- C10 witness: `start = ⟨3, 5⟩ > end = ⟨3, 1⟩` issues one request for
month 3 and returns the empty table although the batch has a row. -/
theorem C10_start_after_end_witness :
    queryMonths ⟨3, 5⟩ ⟨3, 1⟩ = [3] ∧
      utahaq_api_get (fun _ => some [⟨⟨3, 6⟩, 0, 1, 2⟩]) ⟨3, 5⟩ ⟨3, 1⟩ = Except.ok [] :=
  C10_start_after_end (fun _ => some [⟨⟨3, 6⟩, 0, 1, 2⟩]) ⟨3, 5⟩ ⟨3, 1⟩
    (by decide) [⟨⟨3, 6⟩, 0, 1, 2⟩] rfl (by decide)

/-- C3 counterexample: a response whose status field is `5` (neither `-1`,
`200`, nor `2`) but whose station list is empty makes `synoptic_api_get`
raise a value-category error (`pd.concat` on an empty frame list) instead
of returning a table, so "value-category error iff status = 2" and "any
other status returns a table" both fail as stated. -/
theorem C3_value_error_without_code_two :
    synoptic_api_get (fun _ => ⟨5, []⟩)
        (PyVal.pystr "KSLC") (PyVal.pystr "201901010000")
        (PyVal.pystr "201901010010") PyVal.pynone =
      Except.error (PyErr.valueError "No objects to concatenate") ∧
      (5 : Int) ≠ 2 := ⟨rfl, by decide⟩

/-- C3 (amended): `synoptic_api_get` raises an I/O-category error iff the
response status field is `-1` or `200`; it raises a value-category error
iff the status field is `2` or (the status is none of `-1`, `200`, `2` and
the station list is empty, in which case `pd.concat` raises); for any
other status with a non-empty station list it returns a table. -/
theorem C3_status_dispatch (transport : AParams → AResponse)
    (stid start stop vars : PyVal) (res : AResponse)
    (hres : transport (buildParams stid start stop vars) = res) :
    ((∃ m, synoptic_api_get transport stid start stop vars =
        Except.error (PyErr.osError m)) ↔
      res.response_code = -1 ∨ res.response_code = 200) ∧
    ((∃ m, synoptic_api_get transport stid start stop vars =
        Except.error (PyErr.valueError m)) ↔
      res.response_code = 2 ∨
        (res.response_code ≠ -1 ∧ res.response_code ≠ 200 ∧
          res.response_code ≠ 2 ∧ res.stations = [])) ∧
    (res.response_code ≠ -1 → res.response_code ≠ 200 → res.response_code ≠ 2 →
      res.stations ≠ [] →
      ∃ t, synoptic_api_get transport stid start stop vars = Except.ok t) := by
  rw [synoptic_api_get, hres, synopticProcess]
  by_cases h1 : res.response_code = -1 ∨ res.response_code = 200
  · rw [if_pos h1]
    refine ⟨⟨fun _ => h1, fun _ => ⟨_, rfl⟩⟩, ⟨?_, ?_⟩, ?_⟩
    · rintro ⟨m, hm⟩
      simp at hm
    · rintro (h2 | ⟨ha, hb, _, _⟩)
      · rcases h1 with h | h <;> omega
      · exact absurd h1 (by tauto)
    · intro ha hb _ _
      exact absurd h1 (by tauto)
  · rw [if_neg h1]
    by_cases h2 : res.response_code = 2
    · rw [if_pos h2]
      refine ⟨⟨?_, ?_⟩, ⟨fun _ => Or.inl h2, fun _ => ⟨_, rfl⟩⟩, ?_⟩
      · rintro ⟨m, hm⟩
        simp at hm
      · intro h
        exact absurd h h1
      · intro _ _ hc _
        exact absurd h2 hc
    · rw [if_neg h2]
      by_cases h3 : res.stations = []
      · rw [if_pos h3]
        refine ⟨⟨?_, fun h => absurd h h1⟩,
          ⟨fun _ => Or.inr ⟨?_, ?_, h2, h3⟩, fun _ => ⟨_, rfl⟩⟩, ?_⟩
        · rintro ⟨m, hm⟩
          simp at hm
        · tauto
        · tauto
        · intro _ _ _ hs
          exact absurd h3 hs
      · rw [if_neg h3]
        refine ⟨⟨?_, fun h => absurd h h1⟩, ⟨?_, ?_⟩, fun _ _ _ _ => ⟨_, rfl⟩⟩
        · rintro ⟨m, hm⟩
          simp at hm
        · rintro ⟨m, hm⟩
          simp at hm
        · rintro (h | ⟨_, _, _, hs⟩)
          · exact absurd h h2
          · exact absurd hs h3

/-- C3 witness: a status-`2` response with no stations raises exactly the
no-data value error; the instantiated dispatch characterization holds. -/
theorem C3_status_dispatch_witness :
    ((∃ m, synoptic_api_get (fun _ => ⟨2, []⟩)
        PyVal.pynone PyVal.pynone PyVal.pynone PyVal.pynone =
        Except.error (PyErr.osError m)) ↔
      (2 : Int) = -1 ∨ (2 : Int) = 200) ∧
    ((∃ m, synoptic_api_get (fun _ => ⟨2, []⟩)
        PyVal.pynone PyVal.pynone PyVal.pynone PyVal.pynone =
        Except.error (PyErr.valueError m)) ↔
      (2 : Int) = 2 ∨
        ((2 : Int) ≠ -1 ∧ (2 : Int) ≠ 200 ∧ (2 : Int) ≠ 2 ∧
          ([] : List AStation) = [])) ∧
    ((2 : Int) ≠ -1 → (2 : Int) ≠ 200 → (2 : Int) ≠ 2 →
      ([] : List AStation) ≠ [] →
      ∃ t, synoptic_api_get (fun _ => ⟨2, []⟩)
        PyVal.pynone PyVal.pynone PyVal.pynone PyVal.pynone = Except.ok t) :=
  C3_status_dispatch (fun _ => ⟨2, []⟩)
    PyVal.pynone PyVal.pynone PyVal.pynone PyVal.pynone ⟨2, []⟩ rfl

/-- C8: a response whose status field signals success (none of `-1`,
`200`, `2`) but whose station list is empty makes `synoptic_api_get`
raise (`pd.concat` refuses an empty list of frames) instead of returning
an empty table. -/
theorem C8_empty_station_list_raises (transport : AParams → AResponse)
    (stid start stop vars : PyVal) (res : AResponse)
    (hres : transport (buildParams stid start stop vars) = res)
    (hc1 : res.response_code ≠ -1) (hc2 : res.response_code ≠ 200)
    (hc3 : res.response_code ≠ 2) (hstations : res.stations = []) :
    synoptic_api_get transport stid start stop vars =
      Except.error (PyErr.valueError "No objects to concatenate") := by
  rw [synoptic_api_get, hres, synopticProcess,
    if_neg (by tauto), if_neg hc3, if_pos hstations]

/-- C8 witness: status `5` with an empty station list raises the
concatenation error. -/
theorem C8_empty_station_list_raises_witness :
    synoptic_api_get (fun _ => ⟨5, []⟩)
        (PyVal.pylist ["KSLC", "WBB"]) (PyVal.pyts ⟨0, 0⟩)
        (PyVal.pyts ⟨0, 10⟩) PyVal.pynone =
      Except.error (PyErr.valueError "No objects to concatenate") :=
  C8_empty_station_list_raises (fun _ => ⟨5, []⟩)
    (PyVal.pylist ["KSLC", "WBB"]) (PyVal.pyts ⟨0, 0⟩)
    (PyVal.pyts ⟨0, 10⟩) PyVal.pynone ⟨5, []⟩ rfl
    (by decide) (by decide) (by decide) rfl

/-- C9: the input conversions of `synoptic_api_get` fire only on exact
runtime types.  A `list` of station or variable codes is comma-joined; a
tuple is transmitted as-is.  A value whose type is exactly `pd.Timestamp`
is reformatted to the compact date string; an instance of a `Timestamp`
subclass is transmitted as-is.  Stated on the transmitted query
parameters built by the request-builder prefix. -/
theorem C9_exact_type_conversions :
    (∀ xs start stop vars, (buildParams (PyVal.pylist xs) start stop vars).stid =
      PyVal.pystr (String.intercalate "," xs)) ∧
    (∀ xs start stop vars, (buildParams (PyVal.pytuple xs) start stop vars).stid =
      PyVal.pytuple xs) ∧
    (∀ stid t stop vars, (buildParams stid (PyVal.pyts t) stop vars).start =
      PyVal.pystr (strftimeCompact t)) ∧
    (∀ stid t stop vars, (buildParams stid (PyVal.pytsSub t) stop vars).start =
      PyVal.pytsSub t) ∧
    (∀ stid start t vars, (buildParams stid start (PyVal.pyts t) vars).stop =
      PyVal.pystr (strftimeCompact t)) ∧
    (∀ stid start t vars, (buildParams stid start (PyVal.pytsSub t) vars).stop =
      PyVal.pytsSub t) ∧
    (∀ stid start stop xs, (buildParams stid start stop (PyVal.pylist xs)).vars =
      PyVal.pystr (String.intercalate "," xs)) ∧
    (∀ stid start stop xs, (buildParams stid start stop (PyVal.pytuple xs)).vars =
      PyVal.pytuple xs) :=
  ⟨fun _ _ _ _ => rfl, fun _ _ _ _ => rfl, fun _ _ _ _ => rfl, fun _ _ _ _ => rfl,
    fun _ _ _ _ => rfl, fun _ _ _ _ => rfl, fun _ _ _ _ => rfl, fun _ _ _ _ => rfl⟩

/-- Appending to a column list the columns it does not already contain is
a no-op when the appended list is the same list. -/
theorem colUnion_step_self (cs : List String) :
    cs ++ cs.filter (fun c => ! cs.contains c) = cs := by
  have hf : cs.filter (fun c => ! cs.contains c) = [] := by
    rw [List.filter_eq_nil_iff]
    intro a ha
    simp [ha]
  rw [hf, List.append_nil]

/-- The `pd.concat` column union of a non-empty family of frames that all
share one column list is that column list. -/
theorem colUnion_const (L : List (List String)) (cs : List String)
    (hne : L ≠ []) (hall : ∀ c ∈ L, c = cs) : colUnion L = cs := by
  cases L with
  | nil => exact absurd rfl hne
  | cons head tail =>
    have hh : head = cs := hall head (List.mem_cons_self _ _)
    subst hh
    rw [colUnion]
    have hfirst : ([] : List String) ++
        head.filter (fun c => ! ([] : List String).contains c) = head := by
      simp
    rw [List.foldl_cons, hfirst]
    have haux : ∀ t : List (List String), (∀ c ∈ t, c = head) →
        t.foldl (fun acc cs => acc ++ cs.filter (fun c => ! acc.contains c)) head = head := by
      intro t
      induction t with
      | nil => intro _; rfl
      | cons x xs ih =>
          intro hx
          have hxh : x = head := hx x (List.mem_cons_self _ _)
          subst hxh
          rw [List.foldl_cons, colUnion_step_self]
          exact ih (fun c hc => hx c (List.mem_cons_of_mem _ hc))
    exact haux tail (fun c hc => hall c (List.mem_cons_of_mem _ hc))

/-- C7: when a Provider A call succeeds and every station's observation
block carries exactly the requested measurement fields, the returned
table's columns are exactly the fixed `stid`, `latitude`, `longitude`
columns followed by the requested measurement columns — no more, no
fewer. -/
theorem C7_columns_exact (transport : AParams → AResponse)
    (stid start stop vars : PyVal) (res : AResponse) (reqCols : List String)
    (hres : transport (buildParams stid start stop vars) = res)
    (hc1 : res.response_code ≠ -1) (hc2 : res.response_code ≠ 200)
    (hc3 : res.response_code ≠ 2) (hne : res.stations ≠ [])
    (hcols : ∀ st ∈ res.stations, stationCols st = reqCols) :
    ∃ t, synoptic_api_get transport stid start stop vars = Except.ok t ∧
      t.columns = ["stid", "latitude", "longitude"] ++ reqCols := by
  rw [synoptic_api_get, hres, synopticProcess,
    if_neg (by tauto), if_neg hc3, if_neg hne]
  refine ⟨_, rfl, ?_⟩
  rw [ATable.columns]
  have hcu : colUnion (res.stations.map stationCols) = reqCols := by
    apply colUnion_const
    · intro hmap
      exact hne (List.map_eq_nil_iff.mp hmap)
    · intro c hc
      rcases List.mem_map.mp hc with ⟨st, hst, rfl⟩
      exact hcols st hst
  rw [hcu]
  rfl

/-- C7 witness: a two-station success response whose stations both report
exactly `air_temp_set_1` yields the four-column table. -/
theorem C7_columns_exact_witness :
    ∃ t, synoptic_api_get (fun _ => resTwoStations)
        (PyVal.pylist ["KSLC", "WBB"]) (PyVal.pyts ⟨0, 0⟩)
        (PyVal.pyts ⟨0, 10⟩) (PyVal.pylist ["air_temp"]) = Except.ok t ∧
      t.columns = ["stid", "latitude", "longitude"] ++ ["air_temp_set_1"] :=
  C7_columns_exact (fun _ => resTwoStations)
    (PyVal.pylist ["KSLC", "WBB"]) (PyVal.pyts ⟨0, 0⟩)
    (PyVal.pyts ⟨0, 10⟩) (PyVal.pylist ["air_temp"]) resTwoStations
    ["air_temp_set_1"] rfl (by decide) (by decide) (by decide)
    (by decide) (by decide)

/-- C4 counterexample: a successful two-station Provider A call whose
stations' time ranges overlap returns a concatenated table whose
timestamp index is NOT ascending — the code concatenates station blocks
in response order and never sorts. -/
theorem C4_concat_not_sorted :
    ∃ t, synoptic_api_get (fun _ => resTwoStations)
        (PyVal.pylist ["KSLC", "WBB"]) (PyVal.pyts ⟨0, 0⟩)
        (PyVal.pyts ⟨0, 10⟩) PyVal.pynone = Except.ok t ∧
      ¬ List.Pairwise (fun a b : ARow => a.date ≤ b.date) t.rows := by
  refine ⟨_, rfl, ?_⟩
  decide

/-- C4 (amended): the returned table preserves concatenation order, so it
is ascending only blockwise in general.  For Provider B the index is
ascending whenever each fetched monthly batch is ascending and its rows'
timestamps lie in that batch's own month (batches are requested in
strictly increasing month order); a multi-station Provider A table need
not be globally ascending. -/
theorem C4_utahaq_sorted_of_sorted_batches (fetch : Nat → Option (List RawRow)) (s e : Ts)
    (hsorted : ∀ m ∈ queryMonths s e, ∀ raws, fetch m = some raws →
      List.Pairwise (fun a b : RawRow => a.ts ≤ b.ts) raws ∧ ∀ r ∈ raws, r.ts.ym = m)
    (rows : List BRow) (h : utahaq_api_get fetch s e = Except.ok rows) :
    List.Pairwise (fun a b : BRow => a.ts ≤ b.ts) rows := by
  rw [utahaq_api_get] at h
  split at h
  · cases h
  · cases h
    apply List.Pairwise.sublist (List.filter_sublist _)
    have key : ∀ ms : List Nat, List.Pairwise (· < ·) ms →
        (∀ m ∈ ms, ∀ raws, fetch m = some raws →
          List.Pairwise (fun a b : RawRow => a.ts ≤ b.ts) raws ∧
            ∀ r ∈ raws, r.ts.ym = m) →
        List.Pairwise (fun a b : BRow => a.ts ≤ b.ts)
          (((ms.map (fun m => utahaq_batch_get (fetch m))).filterMap id).flatten) := by
      intro ms
      induction ms with
      | nil =>
          intro _ _
          simp
      | cons m tail ih =>
          intro hpw hh
          rcases List.pairwise_cons.mp hpw with ⟨hlt, htail⟩
          have hhtail : ∀ m' ∈ tail, ∀ raws, fetch m' = some raws →
              List.Pairwise (fun a b : RawRow => a.ts ≤ b.ts) raws ∧
                ∀ r ∈ raws, r.ts.ym = m' :=
            fun m' hm' => hh m' (List.mem_cons_of_mem _ hm')
          cases hfetch : fetch m with
          | none =>
              have hnone : id (utahaq_batch_get (fetch m)) = none := by
                rw [hfetch]; rfl
              rw [List.map_cons, List.filterMap_cons_none hnone]
              exact ih htail hhtail
          | some raws =>
              rcases hh m (List.mem_cons_self _ _) raws hfetch with ⟨hsort, hym⟩
              have hsome : id (utahaq_batch_get (fetch m)) =
                  some ((raws.filter (fun r => r.esampler_error_code == 0)).map toBRow) := by
                rw [hfetch]; rfl
              rw [List.map_cons, List.filterMap_cons_some hsome, List.flatten_cons,
                List.pairwise_append]
              refine ⟨?_, ih htail hhtail, ?_⟩
              · rw [List.pairwise_map]
                exact List.Pairwise.sublist (List.filter_sublist _) hsort
              · intro a ha b hb
                rcases List.mem_map.mp ha with ⟨ra, hra, rfl⟩
                have hya : ra.ts.ym = m := hym ra (List.mem_of_mem_filter hra)
                rcases mem_batches_flatten hb with ⟨m', hm', raws', hf', raw', hraw', _, rfl⟩
                have hyb : raw'.ts.ym = m' := (hhtail m' hm' raws' hf').2 raw' hraw'
                have hmm : ra.ts.ym < raw'.ts.ym := by
                  rw [hya, hyb]
                  exact hlt m' hm'
                exact Ts.le_of_ym_lt hmm
    exact key (queryMonths s e) (queryMonths_pairwise_lt s e) hsorted

/-- C4 witness: a single-month call whose batch is ascending and in-month
returns an ascending table. -/
theorem C4_utahaq_sorted_of_sorted_batches_witness :
    List.Pairwise (fun a b : BRow => a.ts ≤ b.ts)
      [⟨⟨0, 1⟩, 1, 2⟩, ⟨⟨0, 4⟩, 3, 4⟩] :=
  C4_utahaq_sorted_of_sorted_batches
    (fun _ => some [⟨⟨0, 1⟩, 0, 1, 2⟩, ⟨⟨0, 4⟩, 0, 3, 4⟩]) ⟨0, 0⟩ ⟨0, 9⟩
    (by
      intro m hm raws hr
      cases hr
      have hm0 : m = 0 := List.mem_singleton.mp hm
      subst hm0
      exact ⟨by decide, by decide⟩)
    [⟨⟨0, 1⟩, 1, 2⟩, ⟨⟨0, 4⟩, 3, 4⟩] rfl
